import Mathlib

/-!
Shallow embedding of `src/windows_companion.py` (Windows Sticky Notes
companion app): the JSON value model used on the wire, the notes cache
(`SyncManager.notes_cache`, the RemoteNoteView), the TCP client
(`TCPClient.connect`, `TCPClient.send_note`, `TCPClient._receive_messages`)
and the store parser (`WindowsNotesParser.parse_notes`).

Machine-level conventions: bytes are `Nat` values below 256; Python byte
strings are `List Nat`; Python text strings are `List Char`.  Python's
`None` and JSON `null` are the same object in the source, so both are
modelled by `Json.null`.  All modelled functions are total: the Python
code catches exceptions on every path the claims touch, and totality
mirrors the claims' "no exception propagates" clauses.
-/

/-- Character list of a string literal (Python text). -/
def sl (s : String) : List Char := s.data

/-- JSON values as produced by `json.loads` / consumed by `json.dumps`.
Numbers are modelled as integers only: the wire protocol of this program
carries no fractional numbers, and the parser below rejects them
explicitly rather than mis-modelling them. -/
inductive Json where
  | null
  | bool (b : Bool)
  | num (n : Int)
  | str (s : List Char)
  | arr (xs : List Json)
  | obj (kvs : List (List Char × Json))

mutual

/-- Structural equality on JSON values (Python `==` on parsed values). -/
def beqJ : Json → Json → Bool
  | Json.null, Json.null => true
  | Json.bool a, Json.bool b => a == b
  | Json.num a, Json.num b => a == b
  | Json.str a, Json.str b => a == b
  | Json.arr a, Json.arr b => beqJA a b
  | Json.obj a, Json.obj b => beqJO a b
  | _, _ => false

/-- Equality on JSON arrays, element-wise. -/
def beqJA : List Json → List Json → Bool
  | [], [] => true
  | x :: xs, y :: ys => beqJ x y && beqJA xs ys
  | _, _ => false

/-- Equality on JSON object member lists, pair-wise. -/
def beqJO : List (List Char × Json) → List (List Char × Json) → Bool
  | [], [] => true
  | (k1, v1) :: xs, (k2, v2) :: ys => k1 == k2 && beqJ v1 v2 && beqJO xs ys
  | _, _ => false

end

mutual

/-- `beqJ` is reflexive. -/
theorem beqJ_refl : (j : Json) → beqJ j j = true
  | Json.null => by simp [beqJ]
  | Json.bool b => by simp [beqJ]
  | Json.num n => by simp [beqJ]
  | Json.str s => by simp [beqJ]
  | Json.arr xs => by simp [beqJ, beqJA_refl xs]
  | Json.obj kvs => by simp [beqJ, beqJO_refl kvs]

/-- `beqJA` is reflexive. -/
theorem beqJA_refl : (xs : List Json) → beqJA xs xs = true
  | [] => by simp [beqJA]
  | x :: xs => by simp [beqJA, beqJ_refl x, beqJA_refl xs]

/-- `beqJO` is reflexive. -/
theorem beqJO_refl : (kvs : List (List Char × Json)) → beqJO kvs kvs = true
  | [] => by simp [beqJO]
  | (k, v) :: rest => by simp [beqJO, beqJ_refl v, beqJO_refl rest]

end

/-- Python truthiness (`if x:`) on values produced by `json.loads`:
`None`, `False`, `0`, `""`, `[]`, `{}` are falsy, everything else truthy. -/
def truthy : Json → Bool
  | Json.null => false
  | Json.bool b => b
  | Json.num n => !(n == 0)
  | Json.str s => !s.isEmpty
  | Json.arr xs => !xs.isEmpty
  | Json.obj kvs => !kvs.isEmpty

/-- Association lookup over an object member list, first match wins
(Python dicts have unique keys, so first match is the match). -/
def assoc_get : List (List Char × Json) → List Char → Option Json
  | [], _ => none
  | (k, v) :: rest, key => if k = key then some v else assoc_get rest key

/-- Python `data.get(key)`: `None` when absent.  The source only calls
`.get` on dict values; on a non-dict Python would raise, which no claim
exercises, so the model returns `null` there. -/
def py_get (data : Json) (key : String) : Json :=
  match data with
  | Json.obj kvs => (assoc_get kvs (sl key)).getD Json.null
  | _ => Json.null

/-- Python `data.get(key, dflt)` with an explicit default. -/
def py_get_default (data : Json) (key : String) (dflt : Json) : Json :=
  match data with
  | Json.obj kvs => (assoc_get kvs (sl key)).getD dflt
  | _ => dflt

/-- `SyncManager.notes_cache`: a Python dict keyed by whatever
`note.get('id')` returned, modelled as an insertion-ordered association
list, matching dict insertion-order semantics. -/
abbrev NotesCache := List (Json × Json)

/-- `cache[k] = v`: replace in place if the key is present, else append
(Python dict assignment preserves insertion order). -/
def dict_insert (k v : Json) : NotesCache → NotesCache
  | [] => [(k, v)]
  | (k1, v1) :: rest =>
    if beqJ k1 k then (k, v) :: rest else (k1, v1) :: dict_insert k v rest

/-- `del cache[k]`: remove the (unique) entry with this key. -/
def dict_remove (k : Json) : NotesCache → NotesCache
  | [] => []
  | (k1, v1) :: rest =>
    if beqJ k1 k then rest else (k1, v1) :: dict_remove k rest

/-- `k in cache`. -/
def dict_contains (cache : NotesCache) (k : Json) : Bool :=
  cache.any (fun kv => beqJ kv.1 k)

/-- `cache[k]` as an option. -/
def dict_get : NotesCache → Json → Option Json
  | [], _ => none
  | (k1, v1) :: rest, k => if beqJ k1 k then some v1 else dict_get rest k

/-- `SyncManager.create_note_on_windows`: store the note in the cache
under its id, guarded by Python truthiness of the id. -/
def create_note_on_windows (cache : NotesCache) (note : Json) : NotesCache :=
  if truthy (py_get note "id") then dict_insert (py_get note "id") note cache else cache

/-- `SyncManager.update_note_on_windows`: overwrite only if the id is
already a key of the cache. -/
def update_note_on_windows (cache : NotesCache) (note : Json) : NotesCache :=
  if dict_contains cache (py_get note "id") then dict_insert (py_get note "id") note cache
  else cache

/-- `SyncManager.delete_note_on_windows`: delete only if the id is a key
of the cache. -/
def delete_note_on_windows (cache : NotesCache) (note : Json) : NotesCache :=
  if dict_contains cache (py_get note "id") then dict_remove (py_get note "id") cache
  else cache

/-- The action dispatch inside `SyncManager.handle_message`, over the
locals `action` and `note`. -/
def handle_action (cache : NotesCache) (action note : Json) : NotesCache :=
  if beqJ action (Json.str (sl "create")) then create_note_on_windows cache note
  else if beqJ action (Json.str (sl "update")) then update_note_on_windows cache note
  else if beqJ action (Json.str (sl "delete")) then delete_note_on_windows cache note
  else cache

/-- `SyncManager.handle_message`: dispatch an inbound decoded message on
its `type` and `action` fields (`action` and `note` are the locals bound
from `data.get('action')` and `data.get('note', \x7b\x7d)`). -/
def handle_message (cache : NotesCache) (data : Json) : NotesCache :=
  if beqJ (py_get data "type") (Json.str (sl "note_update")) then
    handle_action cache (py_get data "action") (py_get_default data "note" (Json.obj []))
  else cache

/-- UTF-8 encoding of one Unicode scalar value (Python `str.encode('utf-8')`
per character). -/
def utf8_enc_char (n : Nat) : List Nat :=
  if n < 128 then [n]
  else if n < 2048 then [192 + n / 64, 128 + n % 64]
  else if n < 65536 then [224 + n / 4096, 128 + n / 64 % 64, 128 + n % 64]
  else [240 + n / 262144, 128 + n / 4096 % 64, 128 + n / 64 % 64, 128 + n % 64]

/-- Python `text.encode('utf-8')`. -/
def utf8_enc (cs : List Char) : List Nat :=
  cs.foldr (fun c acc => utf8_enc_char c.toNat ++ acc) []

/-- Python `data.decode('utf-8')`, strict mode: rejects stray continuation
bytes, overlong forms, surrogates and values above U+10FFFF, exactly as
CPython's strict UTF-8 decoder does. `none` models `UnicodeDecodeError`. -/
def utf8_decode : List Nat → Option (List Char)
  | [] => some []
  | b :: bs =>
    if b < 128 then
      (utf8_decode bs).map (fun cs => Char.ofNat b :: cs)
    else if b < 194 then none
    else if b < 224 then
      match bs with
      | b2 :: bs2 =>
        if 128 ≤ b2 ∧ b2 < 192 then
          (utf8_decode bs2).map (fun cs => Char.ofNat ((b - 192) * 64 + (b2 - 128)) :: cs)
        else none
      | [] => none
    else if b < 240 then
      match bs with
      | b2 :: b3 :: bs3 =>
        if (128 ≤ b2 ∧ b2 < 192) ∧ (128 ≤ b3 ∧ b3 < 192) then
          let cp := (b - 224) * 4096 + (b2 - 128) * 64 + (b3 - 128)
          if 2048 ≤ cp ∧ (cp < 55296 ∨ 57344 ≤ cp) then
            (utf8_decode bs3).map (fun cs => Char.ofNat cp :: cs)
          else none
        else none
      | _ => none
    else if b < 245 then
      match bs with
      | b2 :: b3 :: b4 :: bs4 =>
        if (128 ≤ b2 ∧ b2 < 192) ∧ ((128 ≤ b3 ∧ b3 < 192) ∧ (128 ≤ b4 ∧ b4 < 192)) then
          let cp := (b - 240) * 262144 + (b2 - 128) * 4096 + (b3 - 128) * 64 + (b4 - 128)
          if 65536 ≤ cp ∧ cp ≤ 1114111 then
            (utf8_decode bs4).map (fun cs => Char.ofNat cp :: cs)
          else none
        else none
      | _ => none
    else none

/-- JSON whitespace skipping (`json.loads` accepts space, tab, LF, CR). -/
def skip_ws : List Char → List Char
  | [] => []
  | c :: cs => if c = ' ' ∨ c = '\t' ∨ c = '\n' ∨ c = '\r' then skip_ws cs else c :: cs

/-- Value of one hex digit. -/
def hex_val (c : Char) : Option Nat :=
  if '0' ≤ c ∧ c ≤ '9' then some (c.toNat - 48)
  else if 'a' ≤ c ∧ c ≤ 'f' then some (c.toNat - 87)
  else if 'A' ≤ c ∧ c ≤ 'F' then some (c.toNat - 55)
  else none

/-- Parse the body of a JSON string after the opening quote: returns the
decoded characters and the rest of the input.  Raw control characters are
rejected, as `json.loads` does.  Lone-surrogate escapes are rejected (a
modelling restriction; no payload of this protocol uses them). -/
def parse_jstring : List Char → Option (List Char × List Char)
  | [] => none
  | c :: cs =>
    if c = Char.ofNat 34 then some ([], cs)
    else if c.toNat < 32 then none
    else if c = '\\' then
      match cs with
      | [] => none
      | e :: cs2 =>
        if e = Char.ofNat 34 ∨ e = '\\' ∨ e = '/' then
          (parse_jstring cs2).map (fun r => (e :: r.1, r.2))
        else if e = 'b' then (parse_jstring cs2).map (fun r => (Char.ofNat 8 :: r.1, r.2))
        else if e = 'f' then (parse_jstring cs2).map (fun r => (Char.ofNat 12 :: r.1, r.2))
        else if e = 'n' then (parse_jstring cs2).map (fun r => ('\n' :: r.1, r.2))
        else if e = 'r' then (parse_jstring cs2).map (fun r => ('\r' :: r.1, r.2))
        else if e = 't' then (parse_jstring cs2).map (fun r => ('\t' :: r.1, r.2))
        else if e = 'u' then
          match cs2 with
          | h1 :: h2 :: h3 :: h4 :: cs6 =>
            match hex_val h1, hex_val h2, hex_val h3, hex_val h4 with
            | some a, some b, some c3, some d =>
              let cp := a * 4096 + b * 256 + c3 * 16 + d
              if cp < 55296 ∨ 57344 ≤ cp then
                (parse_jstring cs6).map (fun r => (Char.ofNat cp :: r.1, r.2))
              else none
            | _, _, _, _ => none
          | _ => none
        else none
    else (parse_jstring cs).map (fun r => (c :: r.1, r.2))

/-- Longest prefix of decimal digits. -/
def digit_span : List Char → List Char × List Char
  | [] => ([], [])
  | c :: cs =>
    if '0' ≤ c ∧ c ≤ '9' then
      let r := digit_span cs
      (c :: r.1, r.2)
    else ([], c :: cs)

/-- Natural number denoted by a digit list. -/
def nat_of_digits (ds : List Char) : Nat :=
  ds.foldl (fun a c => a * 10 + (c.toNat - 48)) 0

/-- Parse an unsigned JSON integer: nonempty digits, no redundant leading
zero, and not followed by a fraction or exponent (the model covers the
integer subset of JSON numbers; this protocol carries no floats). -/
def parse_jnat (cs : List Char) : Option (Nat × List Char) :=
  let r := digit_span cs
  match r.1 with
  | [] => none
  | d :: ds =>
    if d = '0' ∧ ds ≠ [] then none
    else
      match r.2 with
      | c :: _ => if c = '.' ∨ c = 'e' ∨ c = 'E' then none else some (nat_of_digits (d :: ds), r.2)
      | [] => some (nat_of_digits (d :: ds), r.2)

/-- Parse a JSON number (integer subset). -/
def parse_jnum (cs : List Char) : Option (Json × List Char) :=
  match cs with
  | '-' :: rest => (parse_jnat rest).map (fun p => (Json.num (-(p.1 : Int)), p.2))
  | _ => (parse_jnat cs).map (fun p => (Json.num (p.1 : Int), p.2))

mutual

/-- Recursive-descent JSON value, fuelled (fuel bounds nesting depth). -/
def pj_value : Nat → List Char → Option (Json × List Char)
  | 0, _ => none
  | f + 1, cs =>
    match skip_ws cs with
    | [] => none
    | c :: rest =>
      if c = 'n' then
        match rest with
        | 'u' :: 'l' :: 'l' :: r => some (Json.null, r)
        | _ => none
      else if c = 't' then
        match rest with
        | 'r' :: 'u' :: 'e' :: r => some (Json.bool true, r)
        | _ => none
      else if c = 'f' then
        match rest with
        | 'a' :: 'l' :: 's' :: 'e' :: r => some (Json.bool false, r)
        | _ => none
      else if c = Char.ofNat 34 then
        (parse_jstring rest).map (fun p => (Json.str p.1, p.2))
      else if c.toNat = 123 then pj_obj f rest
      else if c = '[' then pj_arr f rest
      else if c = '-' ∨ ('0' ≤ c ∧ c ≤ '9') then parse_jnum (c :: rest)
      else none

/-- Array body after the opening bracket. -/
def pj_arr : Nat → List Char → Option (Json × List Char)
  | 0, _ => none
  | f + 1, cs =>
    match skip_ws cs with
    | ']' :: r => some (Json.arr [], r)
    | _ => (pj_elems f cs).map (fun p => (Json.arr p.1, p.2))

/-- One-or-more comma-separated array elements, then the closing bracket. -/
def pj_elems : Nat → List Char → Option (List Json × List Char)
  | 0, _ => none
  | f + 1, cs =>
    match pj_value f cs with
    | none => none
    | some (x, r1) =>
      match skip_ws r1 with
      | ',' :: r2 => (pj_elems f r2).map (fun p => (x :: p.1, p.2))
      | ']' :: r2 => some ([x], r2)
      | _ => none

/-- Object body after the opening brace. -/
def pj_obj : Nat → List Char → Option (Json × List Char)
  | 0, _ => none
  | f + 1, cs =>
    match skip_ws cs with
    | c :: r =>
      if c.toNat = 125 then some (Json.obj [], r)
      else (pj_members f cs).map (fun p => (Json.obj p.1, p.2))
    | [] => none

/-- One-or-more comma-separated object members, then the closing brace. -/
def pj_members : Nat → List Char → Option (List (List Char × Json) × List Char)
  | 0, _ => none
  | f + 1, cs =>
    match skip_ws cs with
    | c :: r =>
      if c = Char.ofNat 34 then
        match parse_jstring r with
        | none => none
        | some (key, r1) =>
          match skip_ws r1 with
          | ':' :: r2 =>
            match pj_value f r2 with
            | none => none
            | some (v, r3) =>
              match skip_ws r3 with
              | ',' :: r4 => (pj_members f r4).map (fun p => ((key, v) :: p.1, p.2))
              | c2 :: r4 => if c2.toNat = 125 then some ([(key, v)], r4) else none
              | [] => none
          | _ => none
      else none
    | [] => none

end

/-- Python `json.loads` on a text string: one JSON value, then only
whitespace to the end of input.  `none` models `json.JSONDecodeError`. -/
def json_loads (cs : List Char) : Option Json :=
  match pj_value (3 * cs.length + 3) cs with
  | some (v, rest) => if skip_ws rest = [] then some v else none
  | none => none

/-- Lowercase hex digit. -/
def hex_digit (n : Nat) : Char :=
  if n < 10 then Char.ofNat (48 + n) else Char.ofNat (87 + n)

/-- Four-digit `\uXXXX` escape. -/
def u_escape (n : Nat) : List Char :=
  ['\\', 'u', hex_digit (n / 4096 % 16), hex_digit (n / 256 % 16),
   hex_digit (n / 16 % 16), hex_digit (n % 16)]

/-- `json.dumps` escaping of one character with the default
`ensure_ascii=True`: quote, backslash and the short control escapes, other
control characters and all non-ASCII as `\uXXXX` (surrogate pairs beyond
the BMP). -/
def esc_char (c : Char) : List Char :=
  if c = Char.ofNat 34 then ['\\', Char.ofNat 34]
  else if c = '\\' then ['\\', '\\']
  else if c = '\n' then ['\\', 'n']
  else if c = '\r' then ['\\', 'r']
  else if c = '\t' then ['\\', 't']
  else if c.toNat = 8 then ['\\', 'b']
  else if c.toNat = 12 then ['\\', 'f']
  else if c.toNat < 32 then u_escape c.toNat
  else if c.toNat < 128 then [c]
  else if c.toNat < 65536 then u_escape c.toNat
  else u_escape (55296 + (c.toNat - 65536) / 1024) ++ u_escape (56320 + (c.toNat - 65536) % 1024)

/-- Escape a whole string body. -/
def esc_str (s : List Char) : List Char :=
  s.foldr (fun c acc => esc_char c ++ acc) []

/-- A JSON string literal with quotes. -/
def dumps_str (s : List Char) : List Char :=
  Char.ofNat 34 :: esc_str s ++ [Char.ofNat 34]

mutual

/-- Python `json.dumps` with its default separators (`", "` and `": "`)
and dict insertion order, as used in `TCPClient.send_note`. -/
def json_dumps : Json → List Char
  | Json.null => sl "null"
  | Json.bool true => sl "true"
  | Json.bool false => sl "false"
  | Json.num n => sl (toString n)
  | Json.str s => dumps_str s
  | Json.arr xs => '[' :: dumps_elems xs ++ [']']
  | Json.obj kvs => Char.ofNat 123 :: dumps_members kvs ++ [Char.ofNat 125]

/-- Comma-separated array elements. -/
def dumps_elems : List Json → List Char
  | [] => []
  | [x] => json_dumps x
  | x :: xs => json_dumps x ++ ',' :: ' ' :: dumps_elems xs

/-- Comma-separated object members, `"key": value` each. -/
def dumps_members : List (List Char × Json) → List Char
  | [] => []
  | [(k, v)] => dumps_str k ++ ':' :: ' ' :: json_dumps v
  | (k, v) :: rest => dumps_str k ++ ':' :: ' ' :: json_dumps v ++ ',' :: ' ' :: dumps_members rest

end

/-- State of `TCPClient`.  The socket is abstracted to an open/closed
flag; bytes written by successful `sendall` calls are recorded in `sent`;
`write_outcomes i` tells whether the i-th `sendall` of this client's
lifetime succeeds (modelling OS-level write failures). -/
structure TCPClient where
  host : String
  port : Option Nat
  connected : Bool
  socket_open : Bool
  actual_port : Option Nat
  sent : List (List Nat)
  write_outcomes : Nat → Bool
  write_count : Nat

/-- `TCPClient.connect`: the candidate port list.  Python `if self.port:`
is truthiness, so both `None` and `0` fall back to the fixed list. -/
def ports_to_try (c : TCPClient) : List Nat :=
  match c.port with
  | some p => if p ≠ 0 then [p] else [8080, 3000, 5000, 8000, 9000]
  | none => [8080, 3000, 5000, 8000, 9000]

/-- The body of `TCPClient.connect`'s loop over candidate ports.
`try_port` abstracts `socket.connect` succeeding on a given port.  Returns
the resulting client state and the list of ports attempted, in order.  A
failed attempt closes the fresh socket and clears `connected`; a success
records `actual_port`, sets `connected` and returns at once (the real code
then starts the receive thread and fires `on_connected`).  Every exception
is caught inside the loop, so the function is total — nothing propagates
to the caller. -/
def connect_go (try_port : Nat → Bool) (c : TCPClient) : List Nat → TCPClient × List Nat
  | [] => (c, [])
  | p :: ps =>
    if try_port p then
      ({ c with socket_open := true, connected := true, actual_port := some p }, [p])
    else
      let c2 := { c with socket_open := false, connected := false }
      let r := connect_go try_port c2 ps
      (r.1, p :: r.2)

/-- `TCPClient.connect`. -/
def tcp_connect (try_port : Nat → Bool) (c : TCPClient) : TCPClient × List Nat :=
  connect_go try_port c (ports_to_try c)

/-- The message dict built in `TCPClient.send_note`. -/
def note_message (action : String) (note : Json) : Json :=
  Json.obj [(sl "type", Json.str (sl "note_update")),
            (sl "action", Json.str (sl action)),
            (sl "note", note)]

/-- Python `len(data).to_bytes(4, byteorder='big')`.  (Python raises
`OverflowError` at 2^32; payloads here are tiny.) -/
def len_bytes4 (n : Nat) : List Nat :=
  [n / 16777216 % 256, n / 65536 % 256, n / 256 % 256, n % 256]

/-- The bytes `send_note` writes for one payload: 4-byte big-endian
length, then the payload. -/
def frame_bytes (payload : List Nat) : List Nat :=
  len_bytes4 payload.length ++ payload

/-- The serialized payload `send_note` produces for a note and action. -/
def send_payload (action : String) (note : Json) : List Nat :=
  utf8_enc (json_dumps (note_message action note))

/-- `TCPClient.send_note`: silent no-op unless connected with a live
socket; on write failure the exception is caught, the channel is marked
disconnected, and nothing is recorded as sent. -/
def send_note (c : TCPClient) (note : Json) (action : String) : TCPClient :=
  if c.connected = false ∨ c.socket_open = false then c
  else if c.write_outcomes c.write_count then
    { c with sent := c.sent ++ [frame_bytes (send_payload action note)],
             write_count := c.write_count + 1 }
  else
    { c with connected := false, write_count := c.write_count + 1 }

/-- `SyncManager.sync_to_macos` / the push half of `auto_sync`: one
`create` send per note from the store adapter, in the adapter's order. -/
def sync_to_macos (c : TCPClient) (notes : List Json) : TCPClient :=
  notes.foldl (fun cl n => send_note cl n "create") c

/-- Observable state of the receive-loop thread
(`TCPClient._receive_messages`): the `connected` flag and the messages
delivered to `on_message`, in order. -/
structure RecvState where
  connected : Bool
  delivered : List Json

/-- One iteration of `_receive_messages` on one `recv` result.  The code
does `json.loads(data.decode('utf-8'))` on the raw chunk: there is no
internal buffer and the 4-byte length prefix is never stripped.  An empty
read (peer closed) clears `connected` and ends the loop; a
`UnicodeDecodeError` escapes the inner `except json.JSONDecodeError`
handler, so the outer handler clears `connected` and ends the loop; a
`JSONDecodeError` is swallowed and the loop continues; a decoded value is
handed to `on_message`.  (`socket.timeout` just repeats the loop and is
not a chunk.) -/
def recv_step (s : RecvState) (chunk : List Nat) : RecvState :=
  if s.connected = false then s
  else if chunk.isEmpty then { s with connected := false }
  else
    match utf8_decode chunk with
    | none => { s with connected := false }
    | some cs =>
      match json_loads cs with
      | none => s
      | some m => { s with delivered := s.delivered ++ [m] }

/-- `_receive_messages` over a finite sequence of `recv` results. -/
def receive_messages (s : RecvState) (chunks : List (List Nat)) : RecvState :=
  chunks.foldl recv_step s

/-- The fixed RTF envelope `parse_notes` wraps a note text in. -/
def rtf_wrap (text : List Char) : List Char :=
  sl "\x7b\\rtf1\\ansi\\ansicpg1252\\deff0\\nouicompat\\deflang1033\\viewkind4\\uc1\\pard\\f0\\fs20 "
    ++ text ++ sl "\\par\x7d"

/-- Base64 alphabet. -/
def b64_char (n : Nat) : Char :=
  if n < 26 then Char.ofNat (65 + n)
  else if n < 52 then Char.ofNat (97 + (n - 26))
  else if n < 62 then Char.ofNat (48 + (n - 52))
  else if n = 62 then '+'
  else '/'

/-- Python `base64.b64encode` on a byte string. -/
def b64_encode : List Nat → List Char
  | [] => []
  | [a] => [b64_char (a / 4), b64_char (a % 4 * 16), '=', '=']
  | [a, b] => [b64_char (a / 4), b64_char (a % 4 * 16 + b / 16), b64_char (b % 16 * 4), '=']
  | a :: b :: c :: rest =>
    b64_char (a / 4) :: b64_char (a % 4 * 16 + b / 16) ::
      b64_char (b % 16 * 4 + c / 64) :: b64_char (c % 64) :: b64_encode rest

/-- The note dict `parse_notes` appends for one nonempty row text, given
the fresh uuid drawn for it and the current time. -/
def parsed_note (note_uuid : List Char) (text : List Char) (now : List Char) : Json :=
  Json.obj [(sl "id", Json.str note_uuid),
            (sl "attributedText", Json.str (b64_encode (utf8_enc (rtf_wrap text)))),
            (sl "createdAt", Json.str (now ++ ['Z'])),
            (sl "modifiedAt", Json.str (now ++ ['Z'])),
            (sl "color", Json.str (sl "Yellow"))]

/-- Row-by-row body of `WindowsNotesParser.parse_notes`: empty texts are
skipped; every kept row draws the next fresh uuid from the supply (the
source calls `str(uuid.uuid4())` per row, per call — the supply models the
process randomness, and a different call sees a different supply). -/
def parse_notes_go (uuids : Nat → List Char) (now : List Char) (i : Nat) :
    List (List Char) → List Json
  | [] => []
  | t :: rest =>
    if t.isEmpty then parse_notes_go uuids now i rest
    else parsed_note (uuids i) t now :: parse_notes_go uuids now (i + 1) rest

/-- `WindowsNotesParser.parse_notes` over the texts read from the store. -/
def parse_notes (rows : List (List Char)) (uuids : Nat → List Char) (now : List Char) : List Json :=
  parse_notes_go uuids now 0 rows

/-- A sample note with id `"A"`. -/
def noteA : Json := Json.obj [(sl "id", Json.str (sl "A"))]

/-- A sample note with id `"B"`. -/
def noteB : Json := Json.obj [(sl "id", Json.str (sl "B"))]

/-- The wire frame `send_note` emits for a `create` of `noteA`. -/
def frameA : List Nat := frame_bytes (send_payload "create" noteA)

/-- A fresh, never-connected client (constructor defaults). -/
def client0 : TCPClient :=
  { host := "localhost", port := none, connected := false, socket_open := false,
    actual_port := none, sent := [], write_outcomes := fun _ => true, write_count := 0 }

/-- A connected client whose writes all succeed. -/
def client1 : TCPClient :=
  { host := "localhost", port := none, connected := true, socket_open := true,
    actual_port := some 8080, sent := [], write_outcomes := fun _ => true, write_count := 0 }

/-- A connected client whose next write fails. -/
def client3 : TCPClient :=
  { host := "localhost", port := none, connected := true, socket_open := true,
    actual_port := some 8080, sent := [], write_outcomes := fun _ => false, write_count := 0 }

/-- `RemoteNoteView` reachable from startup: the cache starts `{}` in
`SyncManager.__init__` and is mutated only by `handle_message`. -/
def apply_messages (msgs : List Json) : NotesCache :=
  msgs.foldl handle_message []

theorem dict_insert_idem (k v : Json) : (cache : NotesCache) →
    dict_insert k v (dict_insert k v cache) = dict_insert k v cache
  | [] => by simp [dict_insert, beqJ_refl k]
  | (k1, v1) :: rest => by
    by_cases h : beqJ k1 k = true
    · simp [dict_insert, h, beqJ_refl k]
    · simp [dict_insert, h, dict_insert_idem k v rest]

/-- Claim C8: for every `create` event and every starting state of the
RemoteNoteView, applying the event twice yields the same view as applying
it once (a duplicate `create` for a known id overwrites in place). -/
theorem create_note_idempotent (cache : NotesCache) (note : Json) :
    create_note_on_windows (create_note_on_windows cache note) note
      = create_note_on_windows cache note := by
  unfold create_note_on_windows
  by_cases h : truthy (py_get note "id") = true
  · simp [h, dict_insert_idem]
  · simp [h]

set_option maxRecDepth 10000

theorem dict_get_insert (k v : Json) : (cache : NotesCache) →
    dict_get (dict_insert k v cache) k = some v
  | [] => by simp [dict_insert, dict_get, beqJ_refl]
  | (k1, v1) :: rest => by
    by_cases h : beqJ k1 k = true
    · simp [dict_insert, h, dict_get, beqJ_refl]
    · simp [dict_insert, h, dict_get, dict_get_insert k v rest]

theorem beqJ_null_falsy (k : Json) (ht : truthy k = true) : beqJ k Json.null = false := by
  cases k <;> simp_all [beqJ, truthy]

theorem beqJ_emptystr_falsy (k : Json) (ht : truthy k = true) : beqJ k (Json.str []) = false := by
  cases k <;> simp_all [beqJ, truthy]

theorem truthy_of_beqJ (x y : Json) (h : beqJ x y = true) : truthy x = truthy y := by
  cases x <;> cases y <;> simp_all [beqJ, truthy]
  case arr.arr xs ys => cases xs <;> cases ys <;> simp_all [beqJA]
  case obj.obj xs ys => cases xs <;> cases ys <;> simp_all [beqJO]

theorem contains_falsy_id_false (id : Json) (hid : id = Json.null ∨ id = Json.str []) :
    ∀ (cache : NotesCache), (∀ kv ∈ cache, truthy kv.1 = true) →
      dict_contains cache id = false := by
  intro cache
  induction cache with
  | nil => intro _; rfl
  | cons kv rest ih =>
    intro hkeys
    have hk : truthy kv.1 = true := hkeys kv (by simp)
    have hb : beqJ kv.1 id = false := by
      rcases hid with h | h
      · subst h; exact beqJ_null_falsy _ hk
      · subst h; exact beqJ_emptystr_falsy _ hk
    have hrest := ih (fun kv2 h2 => hkeys kv2 (by simp [h2]))
    simp [dict_contains] at hrest ⊢
    exact ⟨hb, hrest⟩

theorem truthy_id_of_contains (id : Json) : ∀ (cache : NotesCache),
    (∀ kv ∈ cache, truthy kv.1 = true) → dict_contains cache id = true →
      truthy id = true := by
  intro cache
  induction cache with
  | nil => intro _ h; simp [dict_contains] at h
  | cons kv rest ih =>
    intro hkeys hc
    simp [dict_contains] at hc
    rcases hc with h | h
    · rw [← truthy_of_beqJ kv.1 id h]; exact hkeys kv (by simp)
    · exact ih (fun kv2 h2 => hkeys kv2 (by simp [h2])) (by simpa [dict_contains] using h)

theorem mem_dict_insert (k v : Json) : ∀ (cache : NotesCache) (kv : Json × Json),
    kv ∈ dict_insert k v cache → kv = (k, v) ∨ kv ∈ cache := by
  intro cache
  induction cache with
  | nil => intro kv h; simp [dict_insert] at h; simp [h]
  | cons kv1 rest ih =>
    intro kv h
    by_cases hb : beqJ kv1.1 k = true
    · obtain ⟨a, b⟩ := kv1
      simp [dict_insert, hb] at h
      rcases h with h | h
      · left; simp [h]
      · right; simp [h]
    · obtain ⟨a, b⟩ := kv1
      simp [dict_insert, hb] at h
      rcases h with h | h
      · right; simp [h]
      · rcases ih kv h with h2 | h2
        · left; exact h2
        · right; simp [h2]

theorem mem_dict_remove (k : Json) : ∀ (cache : NotesCache) (kv : Json × Json),
    kv ∈ dict_remove k cache → kv ∈ cache := by
  intro cache
  induction cache with
  | nil => intro kv h; simp [dict_remove] at h
  | cons kv1 rest ih =>
    intro kv h
    by_cases hb : beqJ kv1.1 k = true
    · obtain ⟨a, b⟩ := kv1
      simp [dict_remove, hb] at h
      simp [h]
    · obtain ⟨a, b⟩ := kv1
      simp [dict_remove, hb] at h
      rcases h with h | h
      · simp [h]
      · simp [ih kv h]

theorem handle_action_keys_truthy (cache : NotesCache) (action note : Json)
    (hkeys : ∀ kv ∈ cache, truthy kv.1 = true) :
    ∀ kv ∈ handle_action cache action note, truthy kv.1 = true := by
  intro kv hmem
  unfold handle_action at hmem
  split at hmem
  · -- create
    unfold create_note_on_windows at hmem
    split at hmem
    · rcases mem_dict_insert _ _ cache kv hmem with h | h
      · subst h; assumption
      · exact hkeys kv h
    · exact hkeys kv hmem
  · split at hmem
    · -- update
      unfold update_note_on_windows at hmem
      split at hmem
      · rcases mem_dict_insert _ _ cache kv hmem with h | h
        · subst h
          exact truthy_id_of_contains _ cache hkeys (by assumption)
        · exact hkeys kv h
      · exact hkeys kv hmem
    · split at hmem
      · -- delete
        unfold delete_note_on_windows at hmem
        split at hmem
        · exact hkeys kv (mem_dict_remove _ cache kv hmem)
        · exact hkeys kv hmem
      · exact hkeys kv hmem

theorem handle_message_keys_truthy (cache : NotesCache) (data : Json)
    (hkeys : ∀ kv ∈ cache, truthy kv.1 = true) :
    ∀ kv ∈ handle_message cache data, truthy kv.1 = true := by
  intro kv hmem
  unfold handle_message at hmem
  split at hmem
  · exact handle_action_keys_truthy cache _ _ hkeys kv hmem
  · exact hkeys kv hmem

theorem foldl_handle_message_keys_truthy : ∀ (msgs : List Json) (cache : NotesCache),
    (∀ kv ∈ cache, truthy kv.1 = true) →
    ∀ kv ∈ msgs.foldl handle_message cache, truthy kv.1 = true := by
  intro msgs
  induction msgs with
  | nil => intro cache h; simpa using h
  | cons m rest ih =>
    intro cache h
    exact ih (handle_message cache m) (handle_message_keys_truthy cache m h)

theorem apply_messages_keys_truthy (msgs : List Json) :
    ∀ kv ∈ apply_messages msgs, truthy kv.1 = true :=
  foldl_handle_message_keys_truthy msgs [] (by simp)

/-- Claim C1.  The claim says the receive loop buffers bytes across read
boundaries, extracts complete length-prefixed frames and delivers exactly
one decoded message per frame.  The code does none of this:
`_receive_messages` calls `json.loads` on each raw `recv` chunk without
stripping the 4-byte prefix or buffering, so even a complete frame
delivered in a single read (N = 1) is dropped — the prefix bytes make the
chunk invalid JSON.  This theorem evaluates the code at the failing
input: a valid frame for a `create` of `noteA`, whose payload alone is a
perfectly decodable message, delivers nothing whether it arrives in one
read or split in two; the loop keeps running. -/
theorem receive_loop_loses_framed_message :
    utf8_decode (send_payload "create" noteA)
        = some (json_dumps (note_message "create" noteA))
  ∧ json_loads (json_dumps (note_message "create" noteA))
        = some (note_message "create" noteA)
  ∧ (receive_messages ⟨true, []⟩ [frameA]).delivered = []
  ∧ (receive_messages ⟨true, []⟩ [frameA.take 5, frameA.drop 5]).delivered = []
  ∧ (receive_messages ⟨true, []⟩ [frameA]).connected = true :=
  ⟨rfl, rfl, rfl, rfl, rfl⟩

/-- Claim C2.  The claim says `decode(frame(encode(E)))` reconstructs E
for any event, including frames split over several reads or several
frames in one read.  The code's receiver never strips the length prefix
that `send_note` adds, so the round trip loses every event.  The theorem
evaluates the code at the failing input: the exact bytes `send_note`
writes for a `create` of `noteA` produce no delivered message at the
receive loop — whole, split at an arbitrary boundary, or doubled in one
read (where the claim demands one event equal to E, resp. two). -/
theorem framing_round_trip_fails :
    (send_note client1 noteA "create").sent = [frameA]
  ∧ (receive_messages ⟨true, []⟩ [frameA]).delivered = []
  ∧ (receive_messages ⟨true, []⟩ [frameA.take 3, frameA.drop 3]).delivered = []
  ∧ (receive_messages ⟨true, []⟩ [frameA ++ frameA]).delivered = [] :=
  ⟨rfl, rfl, rfl, rfl⟩

/-- Claim C3.  The claim (and the spec's id invariant) says a note's id
is assigned once and stable, so two successive full pushes over the same
unchanged store agree on ids.  The code draws `str(uuid.uuid4())` afresh
for every row on every `parse_notes` call, so the id a note gets is
whatever the process randomness supplies on that call, independent of the
note: with the same single stored row, a call whose fresh draw is
`uuid-0001` and a later call whose draw is `uuid-0002` yield different
ids for the same logical note. -/
theorem parse_notes_assigns_fresh_ids :
    (parse_notes [sl "hello"] (fun _ => sl "uuid-0001")
        (sl "2024-01-01T00:00:00")).map (fun n => py_get n "id")
      = [Json.str (sl "uuid-0001")]
  ∧ (parse_notes [sl "hello"] (fun _ => sl "uuid-0002")
        (sl "2024-01-01T00:00:00")).map (fun n => py_get n "id")
      = [Json.str (sl "uuid-0002")]
  ∧ Json.str (sl "uuid-0001") ≠ Json.str (sl "uuid-0002") := by
  refine ⟨rfl, rfl, ?_⟩
  intro h
  injection h with h1
  exact absurd h1 (by decide)

/-- Claim C4, counterexample.  The claim says any payload that fails to
decode (invalid encoding or invalid JSON) is dropped with the connection
kept open.  But `_receive_messages` catches only `json.JSONDecodeError`;
a `UnicodeDecodeError` from `data.decode('utf-8')` reaches the outer
handler, which clears `connected` and ends the loop.  Concretely: the
invalid-UTF-8 payload `b'\xff'` closes the connection, and the well-formed
frame delivered right after it is never delivered. -/
theorem invalid_utf8_closes_connection :
    receive_messages ⟨true, []⟩ [[255], frameA] = ⟨false, []⟩ :=
  rfl

/-- Claim C4, amended: restricted to chunks that decode as UTF-8 text but
are not valid JSON, the tolerance holds — such a chunk is dropped, the
connection stays open and the loop continues, so an immediately following
read whose bytes are a well-formed bare JSON payload (not a framed one:
see C1/C2) is still delivered to `on_message`.  (A chunk that is not
valid UTF-8 instead closes the connection, per the counterexample.) -/
theorem bad_json_chunk_tolerated (s : RecvState) (c1 c2 : List Nat)
    (t1 t2 : List Char) (m : Json)
    (hs : s.connected = true)
    (h1 : c1.isEmpty = false) (hd1 : utf8_decode c1 = some t1)
    (hj1 : json_loads t1 = none)
    (h2 : c2.isEmpty = false) (hd2 : utf8_decode c2 = some t2)
    (hj2 : json_loads t2 = some m) :
    receive_messages s [c1, c2] = ⟨true, s.delivered ++ [m]⟩ := by
  obtain ⟨sc, sd⟩ := s
  simp only [RecvState.connected] at hs
  subst hs
  simp [receive_messages, recv_step, h1, hd1, hj1, h2, hd2, hj2]

/-- Witness for the amended C4: a lone `b'{'` chunk (valid UTF-8, invalid
JSON) is dropped; the following chunk `b'null'` is decoded and delivered,
with the connection still open. -/
theorem bad_json_chunk_tolerated_witness :
    receive_messages ⟨true, []⟩ [[123], [110, 117, 108, 108]] = ⟨true, [Json.null]⟩ :=
  bad_json_chunk_tolerated ⟨true, []⟩ [123] [110, 117, 108, 108]
    [Char.ofNat 123] (sl "null") Json.null rfl rfl rfl rfl rfl rfl rfl

theorem connect_go_all_fail (try_port : Nat → Bool) :
    ∀ (l : List Nat), l ≠ [] → (∀ p ∈ l, try_port p = false) → ∀ (c : TCPClient),
      connect_go try_port c l = ({ c with socket_open := false, connected := false }, l) := by
  intro l
  induction l with
  | nil => simp
  | cons p ps ih =>
    intro _ hfail c
    have hp : try_port p = false := hfail p (by simp)
    by_cases hps : ps = []
    · subst hps; simp [connect_go, hp]
    · have h2 := ih hps (fun q hq => hfail q (by simp [hq]))
        { c with socket_open := false, connected := false }
      simp [connect_go, hp, h2]

theorem connect_go_first_success (try_port : Nat → Bool) (p : Nat) (post : List Nat)
    (hp : try_port p = true) :
    ∀ (pre : List Nat), (∀ q ∈ pre, try_port q = false) → ∀ (c : TCPClient),
      connect_go try_port c (pre ++ p :: post)
        = ({ c with socket_open := true, connected := true, actual_port := some p },
           pre ++ [p]) := by
  intro pre
  induction pre with
  | nil => intro _ c; simp [connect_go, hp]
  | cons q qs ih =>
    intro hfail c
    have hq : try_port q = false := hfail q (by simp)
    have h2 := ih (fun r hr => hfail r (by simp [hr]))
      { c with socket_open := false, connected := false }
    simp [connect_go, hq, h2]

/-- Claim C5: with no port configured, `connect` attempts 8080, 3000,
5000, 8000, 9000 in exactly that order against the configured host
(`try_port` abstracts which ports accept), stops at the first success and
records it as `actual_port`; if every candidate fails the client stays
disconnected with `actual_port` untouched.  The model is a total
function — the loop catches every exception, so nothing propagates to
the caller. -/
theorem connect_port_discovery (try_port : Nat → Bool) (c : TCPClient)
    (hport : c.port = none) :
    ((∀ p ∈ [8080, 3000, 5000, 8000, 9000], try_port p = false) →
      (tcp_connect try_port c).1.connected = false
        ∧ (tcp_connect try_port c).1.actual_port = c.actual_port
        ∧ (tcp_connect try_port c).2 = [8080, 3000, 5000, 8000, 9000])
  ∧ (∀ pre p post, pre ++ p :: post = ([8080, 3000, 5000, 8000, 9000] : List Nat) →
      (∀ q ∈ pre, try_port q = false) → try_port p = true →
      (tcp_connect try_port c).1.connected = true
        ∧ (tcp_connect try_port c).1.actual_port = some p
        ∧ (tcp_connect try_port c).2 = pre ++ [p]) := by
  have hpt : ports_to_try c = [8080, 3000, 5000, 8000, 9000] := by
    simp [ports_to_try, hport]
  constructor
  · intro hall
    rw [tcp_connect, hpt, connect_go_all_fail try_port _ (by simp) hall c]
    simp
  · intro pre p post hsplit hpre hp
    rw [tcp_connect, hpt, ← hsplit, connect_go_first_success try_port p post hp pre hpre c]
    simp

/-- Witness for C5: with listeners only on port 5000, discovery fails
8080 and 3000 in order, then succeeds and records 5000. -/
theorem connect_port_discovery_witness :
    (tcp_connect (fun p => p == 5000) client0).1.connected = true
  ∧ (tcp_connect (fun p => p == 5000) client0).1.actual_port = some 5000
  ∧ (tcp_connect (fun p => p == 5000) client0).2 = [8080, 3000, 5000] := by
  have h := (connect_port_discovery (fun p => p == 5000) client0 rfl).2
    [8080, 3000] 5000 [8000, 9000] rfl (by decide) rfl
  simpa using h

/-- Claim C6: the full push on a healthy connection (`auto_sync` →
`sync_to_macos`) performs exactly one `create` send per note the store
adapter returned, in the adapter's order: the bytes written are the
frames of the per-note `create` messages, appended in list order. -/
theorem full_push_one_create_per_note (c : TCPClient) (notes : List Json)
    (hc : c.connected = true) (hs : c.socket_open = true)
    (hw : ∀ i, c.write_outcomes i = true) :
    (sync_to_macos c notes).sent
      = c.sent ++ notes.map (fun n => frame_bytes (send_payload "create" n)) := by
  induction notes generalizing c with
  | nil => simp [sync_to_macos]
  | cons n ns ih =>
    have hstep : send_note c n "create"
        = { c with sent := c.sent ++ [frame_bytes (send_payload "create" n)],
                   write_count := c.write_count + 1 } := by
      simp [send_note, hc, hs, hw c.write_count]
    have h2 := ih { c with sent := c.sent ++ [frame_bytes (send_payload "create" n)],
                           write_count := c.write_count + 1 } hc hs hw
    simp only [sync_to_macos, List.foldl_cons, hstep] at h2 ⊢
    rw [h2]
    simp

/-- Witness for C6: a store returning notes A then B yields exactly the
two `create` frames, id A's first, id B's second. -/
theorem full_push_one_create_per_note_witness :
    (sync_to_macos client1 [noteA, noteB]).sent
      = [frame_bytes (send_payload "create" noteA),
         frame_bytes (send_payload "create" noteB)] := by
  have h := full_push_one_create_per_note client1 [noteA, noteB] rfl rfl (fun i => rfl)
  simpa using h

/-- Claim C7, counterexample.  The claim quantifies over every
`update`/`delete` event whose `note.id` is not in the view and asserts a
subsequent `create` for that same id still inserts.  For the id `""`
(not in any view) update and delete are no-ops as claimed, but the
subsequent `create` is ALSO a no-op: `create_note_on_windows` guards on
Python truthiness of the id, and `""` is falsy, so nothing is inserted
where the claim requires an insertion. -/
theorem empty_id_create_does_not_insert :
    update_note_on_windows [] (Json.obj [(sl "id", Json.str [])]) = []
  ∧ delete_note_on_windows [] (Json.obj [(sl "id", Json.str [])]) = []
  ∧ create_note_on_windows [] (Json.obj [(sl "id", Json.str [])]) = [] :=
  ⟨rfl, rfl, rfl⟩

/-- Claim C7, amended: for every `update` or `delete` event whose note id
is truthy (in particular any nonempty id string) and not present in the
view, applying the event leaves the view unchanged and raises no error,
and a subsequent `create` for that same id inserts the note into the
view. -/
theorem unknown_id_noop_then_create (cache : NotesCache) (note : Json)
    (ht : truthy (py_get note "id") = true)
    (hm : dict_contains cache (py_get note "id") = false) :
    update_note_on_windows cache note = cache
  ∧ delete_note_on_windows cache note = cache
  ∧ dict_get (create_note_on_windows cache note) (py_get note "id") = some note := by
  refine ⟨?_, ?_, ?_⟩
  · simp [update_note_on_windows, hm]
  · simp [delete_note_on_windows, hm]
  · simp [create_note_on_windows, ht, dict_get_insert]

/-- Witness for the amended C7: id `"A"` on the empty view — update and
delete are no-ops, then create stores the note under `"A"`. -/
theorem unknown_id_noop_then_create_witness :
    update_note_on_windows [] noteA = []
  ∧ delete_note_on_windows [] noteA = []
  ∧ dict_get (create_note_on_windows [] noteA) (Json.str (sl "A")) = some noteA := by
  exact unknown_id_noop_then_create [] noteA rfl rfl

/-- Claim C9: `send_note` is a silent no-op — no bytes recorded, no
exception (the model is total), state returned unchanged — whenever the
channel is not connected; and when a connected write fails, the channel
transitions to disconnected with the exception caught, nothing sent. -/
theorem send_note_error_handling (c : TCPClient) (note : Json) (action : String) :
    (c.connected = false → send_note c note action = c)
  ∧ (c.connected = true → c.socket_open = true →
      c.write_outcomes c.write_count = false →
      (send_note c note action).connected = false
        ∧ (send_note c note action).sent = c.sent) := by
  constructor
  · intro h; simp [send_note, h]
  · intro hc hs hw; simp [send_note, hc, hs, hw]

/-- Witness for C9: a disconnected client's send returns the client
untouched; a connected client whose write fails ends disconnected with
nothing sent. -/
theorem send_note_error_handling_witness :
    send_note client0 noteA "create" = client0
  ∧ (send_note client3 noteA "create").connected = false
  ∧ (send_note client3 noteA "create").sent = [] := by
  refine ⟨(send_note_error_handling client0 noteA "create").1 rfl, ?_, ?_⟩
  · exact ((send_note_error_handling client3 noteA "create").2 rfl rfl rfl).1
  · exact ((send_note_error_handling client3 noteA "create").2 rfl rfl rfl).2

/-- Claim C10: an inbound `create` or `update` `note_update` message
whose note has no `id` field (hence `note.get('id')` is `None`) or an
empty-string id leaves any reachable `notes_cache` unchanged and raises
no error (all paths are total): `create` is guarded by truthiness of the
id, and `update` requires the id to be an existing key, while every key
of a reachable cache is truthy. -/
theorem missing_id_create_update_noop (msgs : List Json) (note : Json)
    (hid : py_get note "id" = Json.null ∨ py_get note "id" = Json.str []) :
    handle_message (apply_messages msgs) (note_message "create" note)
        = apply_messages msgs
  ∧ handle_message (apply_messages msgs) (note_message "update" note)
        = apply_messages msgs := by
  have hkeys := apply_messages_keys_truthy msgs
  have hfalse : truthy (py_get note "id") = false := by
    rcases hid with h | h <;> rw [h] <;> rfl
  have hcont : dict_contains (apply_messages msgs) (py_get note "id") = false :=
    contains_falsy_id_false (py_get note "id") hid (apply_messages msgs) hkeys
  constructor
  · have hred : handle_message (apply_messages msgs) (note_message "create" note)
        = create_note_on_windows (apply_messages msgs) note := rfl
    rw [hred]
    simp [create_note_on_windows, hfalse]
  · have hred : handle_message (apply_messages msgs) (note_message "update" note)
        = update_note_on_windows (apply_messages msgs) note := rfl
    rw [hred]
    simp [update_note_on_windows, hcont]

/-- Witness for C10: a note literally without an `id` field, against the
freshly started (empty) cache: both `create` and `update` messages leave
it empty. -/
theorem missing_id_create_update_noop_witness :
    handle_message (apply_messages []) (note_message "create" (Json.obj [])) = []
  ∧ handle_message (apply_messages []) (note_message "update" (Json.obj [])) = [] := by
  exact missing_id_create_update_noop [] (Json.obj []) (Or.inl rfl)
